import Mathlib

/-!
Shallow embedding of `nvidia_check.py` (class `NvidiaDriverCheck`) and proofs
about it.  Pure string/number manipulation is translated directly; effectful
methods are translated into functions over explicit inputs standing for the
environment (network responses, user responses, subprocess outcomes), and the
user-visible behaviour is returned as explicit data (event lists, flags).
-/

namespace NvidiaCheck

/-! ## Version parsing: `compare_versions`'s inner `version_tuple`

The Python code is

    def version_tuple(v):
        parts = re.findall(r'\d+', v)
        return tuple(map(int, parts))

`re.findall(r'\d+', v)` extracts the maximal runs of digit characters of `v`,
in order.  `digitRunsAux` scans the character list keeping the current run in
`acc` (in reverse); a run is flushed when a non-digit is met or at the end.
-/

def digitRunsAux : List Char → List Char → List (List Char)
  | [], acc => if acc.isEmpty then [] else [acc.reverse]
  | c :: cs, acc =>
    if c.isDigit then
      digitRunsAux cs (c :: acc)
    else if acc.isEmpty then
      digitRunsAux cs []
    else
      acc.reverse :: digitRunsAux cs []

/-- The maximal digit runs of a string, in order: `re.findall(r'\d+', v)`. -/
def digitRuns (v : String) : List (List Char) :=
  digitRunsAux v.data []

/-- Decimal value of a digit string, the value Python's `int` returns on a
`\d+` match. -/
def digitsToNat (s : List Char) : Nat :=
  s.foldl (fun n c => n * 10 + (c.toNat - 48)) 0

/-- Python's `int(s)` as a fallible operation, restricted to the unsigned
decimal literals that arise here: it succeeds exactly on a nonempty
all-digit string and raises `ValueError` (here: `none`) otherwise. -/
def pyInt (s : List Char) : Option Nat :=
  if s ≠ [] ∧ s.all Char.isDigit then some (digitsToNat s) else none

/-- `Option`-valued map, the composition `tuple(map(int, parts))` where any
`int` failure propagates as an exception (`none`). -/
def mapOption (f : α → Option β) : List α → Option (List β)
  | [] => some []
  | a :: as =>
    match f a, mapOption f as with
    | some b, some bs => some (b :: bs)
    | _, _ => none

/-- `version_tuple(v)`: `tuple(map(int, re.findall(r'\d+', v)))`, with the
possibility of an `int` failure made explicit. -/
def version_tuple (v : String) : Option (List Nat) :=
  mapOption pyInt (digitRuns v)

/-- The numeric sequence `version_tuple` produces when it succeeds. -/
def vtuple (v : String) : List Nat :=
  (digitRuns v).map digitsToNat

/-- Strict lexicographic (Python-tuple) order on integer sequences:
a strict prefix is smaller, otherwise the first differing element decides. -/
def tupleLt : List Nat → List Nat → Bool
  | [], [] => false
  | [], _ :: _ => true
  | _ :: _, [] => false
  | a :: as, b :: bs =>
    if a < b then true
    else if b < a then false
    else tupleLt as bs

/-- `NvidiaDriverCheck.compare_versions`: returns `1` if `latest > current`,
`0` if equal, `-1` if `current > latest`; the `except (ValueError,
AttributeError)` handler returns `0`. -/
def compare_versions (current latest : String) : Int :=
  match version_tuple current, version_tuple latest with
  | some currentTuple, some latestTuple =>
    if tupleLt currentTuple latestTuple then 1
    else if currentTuple = latestTuple then 0
    else -1
  | _, _ => 0

/-! ## User input normalisation

Every confirmation read in the program is `input(...).strip().lower()`.
Implemented over the character list so that concrete instances reduce in the
kernel: strip leading and trailing whitespace, then lower-case. -/

/-- `s.strip().lower()` applied to a user response. -/
def pyNormalize (s : String) : String :=
  ⟨(((s.data.dropWhile Char.isWhitespace).reverse.dropWhile
      Char.isWhitespace).reverse).map Char.toLower⟩

/-! ## `get_latest_driver_version`

The method fetches `latest.txt`; `fetch = none` stands for a network failure,
timeout, non-2xx response or any other exception (all swallowed by the
`except` clause, which prints a warning and falls through to `return None`).
On success the body is split into whitespace-delimited tokens
(`content.strip().split()`) and the first token is returned; an
empty/whitespace-only body gives no tokens, hence `None`. -/

def wsTokensAux : List Char → List Char → List (List Char)
  | [], acc => if acc.isEmpty then [] else [acc.reverse]
  | c :: cs, acc =>
    if c.isWhitespace then
      if acc.isEmpty then wsTokensAux cs []
      else acc.reverse :: wsTokensAux cs []
    else
      wsTokensAux cs (c :: acc)

/-- The whitespace-delimited tokens of a string: `s.strip().split()`. -/
def pyTokens (s : String) : List String :=
  (wsTokensAux s.data []).map String.mk

/-- `NvidiaDriverCheck.get_latest_driver_version`, over the fetched body. -/
def get_latest_driver_version (fetch : Option String) : Option String :=
  match fetch with
  | none => none
  | some content =>
    match pyTokens content with
    | [] => none
    | p :: _ => some p

/-! ## `install_driver`

The subprocess outcome of `sudo <driver_path>` (run with a 600-second
timeout) is an explicit input: it exited with a code, it exceeded the
timeout (`subprocess.TimeoutExpired`), or it raised some other exception. -/

/-- Outcome of the privileged `subprocess.run(['sudo', driver_path])`. -/
inductive ExecResult where
  | exited (code : Int)
  | timedOut
  | raised
deriving DecidableEq

/-- The `timeout=600` argument of the installation subprocess call. -/
def INSTALL_TIMEOUT : Nat := 600

/-- User-visible classification of an `install_driver` run. -/
inductive InstallOutcome where
  | cancelled
  | succeeded
  | failed (code : Int)
  | timedOut
  | errored
deriving DecidableEq

/-- Result of `install_driver`: whether the privileged subprocess was
invoked at all, the boolean return value, and the reported outcome. -/
structure InstallResult where
  sudoInvoked : Bool
  retval : Bool
  outcome : InstallOutcome
deriving DecidableEq

/-- `NvidiaDriverCheck.install_driver`: `resp` is the raw `input()` line,
`exec` the subprocess outcome (reached only after an affirmative
confirmation). -/
def install_driver (resp : String) (exec : ExecResult) : InstallResult :=
  if pyNormalize resp ≠ "yes" then
    ⟨false, false, InstallOutcome.cancelled⟩
  else
    match exec with
    | ExecResult.exited code =>
      if code = 0 then ⟨true, true, InstallOutcome.succeeded⟩
      else ⟨true, false, InstallOutcome.failed code⟩
    | ExecResult.timedOut => ⟨true, false, InstallOutcome.timedOut⟩
    | ExecResult.raised => ⟨true, false, InstallOutcome.errored⟩

/-! ## `download_driver`

The HTTP response is an explicit input: `none` stands for a `URLError` or
any other exception during the transfer (the file contents on such an
aborted transfer are not modelled; no claim depends on them), `some body`
for a successful transfer of exactly `body`.  The loop reads the body in
8192-byte chunks (`response.read(8192)` until empty) and, when the
`Content-Length` header is present and nonzero (Python truthiness of
`file_size`), prints a fractional progress report after each chunk —
modelled as the list of cumulative byte counts, one entry per chunk.  On
completion `os.chmod` adds `stat.S_IXUSR | stat.S_IXGRP | stat.S_IXOTH`
to the destination's permission bits. -/

def CHUNK_SIZE : Nat := 8192

def S_IXUSR : Nat := 0o100
def S_IXGRP : Nat := 0o10
def S_IXOTH : Nat := 0o1

/-- Split a byte list into successive chunks of `n` bytes (the last chunk
may be shorter); `fuel` bounds the recursion and any `fuel ≥ l.length`
is enough when `n ≠ 0`. -/
def chunksOfFuel : Nat → Nat → List Nat → List (List Nat)
  | 0, _, _ => []
  | _ + 1, _, [] => []
  | fuel + 1, n, x :: xs => (x :: xs).take n :: chunksOfFuel fuel n ((x :: xs).drop n)

/-- The successive `response.read(n)` results on a body `l`, until empty. -/
def chunksOf (n : Nat) (l : List Nat) : List (List Nat) :=
  chunksOfFuel l.length n l

/-- The download loop: returns the bytes written to the file and the
cumulative `downloaded` counter after each chunk (the progress reports). -/
def dlLoop : List (List Nat) → Nat → List Nat × List Nat
  | [], _ => ([], [])
  | chunk :: rest, downloaded =>
    let d := downloaded + chunk.length
    let r := dlLoop rest d
    (chunk ++ r.1, d :: r.2)

/-- Result of `download_driver`: destination file contents, progress
reports, destination permission bits, and the boolean return value. -/
structure DownloadResult where
  fileBytes : List Nat
  progress : List Nat
  mode : Nat
  retval : Bool
deriving DecidableEq

/-- `NvidiaDriverCheck.download_driver`: `respBody` is the transfer outcome,
`contentLength` the optional `Content-Length` header value, `mode0` the
destination file's permission bits before `os.chmod`. -/
def download_driver (respBody : Option (List Nat)) (contentLength : Option Nat)
    (mode0 : Nat) : DownloadResult :=
  match respBody with
  | none => ⟨[], [], mode0, false⟩
  | some body =>
    let chunks := chunksOf CHUNK_SIZE body
    let r := dlLoop chunks 0
    let progress :=
      match contentLength with
      | some n => if n = 0 then [] else r.2
      | none => []
    ⟨r.1, progress, mode0 ||| (S_IXUSR ||| S_IXGRP ||| S_IXOTH), true⟩

/-! ## `_download_and_install_driver`

The shared download-then-install sequence.  The `with
tempfile.TemporaryDirectory()` block guarantees removal of the directory on
every exit path of the body, so the embedding records `tempRemoved` on each
path explicitly; the body never raises (both callees return booleans), so
the paths are exactly: download succeeded (installer invoked, its result
returned) and download failed (manual-download URL reported, `False`
returned, installer never invoked). -/

def NVIDIA_LINUX_LATEST_URL : String :=
  "https://download.nvidia.com/XFree86/Linux-x86_64/latest.txt"

def NVIDIA_LINUX_DOWNLOAD_BASE : String :=
  "https://download.nvidia.com/XFree86/Linux-x86_64"

/-- `NvidiaDriverCheck.get_download_url`. -/
def get_download_url (version : String) : String :=
  NVIDIA_LINUX_DOWNLOAD_BASE ++ "/" ++ version ++ "/NVIDIA-Linux-x86_64-" ++
    version ++ ".run"

/-- The filename computed inside the temporary directory. -/
def driver_filename (version : String) : String :=
  "NVIDIA-Linux-x86_64-" ++ version ++ ".run"

/-- Result of the shared sequence (Python: `_download_and_install_driver`):
the source URL and the artifact filename placed inside the temporary
directory, whether that directory was removed, whether the installer ran,
whether the manual-download URL was reported, and the returned boolean. -/
structure SeqResult where
  downloadUrl : String
  filename : String
  retval : Bool
  tempRemoved : Bool
  installerInvoked : Bool
  manualUrlReported : Bool
deriving DecidableEq

/-- `NvidiaDriverCheck._download_and_install_driver` (leading underscore
dropped for Lean). -/
def download_and_install_driver (version : String) (respBody : Option (List Nat))
    (contentLength : Option Nat) (mode0 : Nat) (confirm : String)
    (exec : ExecResult) : SeqResult :=
  if (download_driver respBody contentLength mode0).retval then
    ⟨get_download_url version, driver_filename version,
      (install_driver confirm exec).retval, true, true, false⟩
  else
    ⟨get_download_url version, driver_filename version, false, true, false, true⟩

/-! ## `check_for_updates`

Translated into the list of user-visible events it produces.  Both
up-to-date messages ("up to date (or newer than latest release)" for a
negative comparison and "up to date" for an equal one) are the event
`reportUpToDate`. -/

inductive Event where
  | reportNoCurrent
  | reportNoLatest
  | reportUpToDate
  | reportNewerAvailable
  | promptUser
  | runDownloadInstall : String → Event
  | reportManualGuidance
deriving DecidableEq

/-- `NvidiaDriverCheck.check_for_updates`: `currentVersion` is the
`get_driver_version()` result, `latestVersion` the
`get_latest_driver_version()` result, `resp` the raw confirmation input.
Both guards are Python falsiness tests (`if not current_version:` and
`if not latest_version:`), so `None` and the empty string alike make the
method report and stop. -/
def check_for_updates (currentVersion latestVersion : Option String)
    (resp : String) : List Event :=
  match currentVersion with
  | none => [Event.reportNoCurrent]
  | some cv =>
    if cv = "" then [Event.reportNoCurrent]
    else
      match latestVersion with
      | none => [Event.reportNoLatest]
      | some lv =>
        if lv = "" then [Event.reportNoLatest]
        else
          let comparison := compare_versions cv lv
          if comparison < 0 then [Event.reportUpToDate]
          else if comparison = 0 then [Event.reportUpToDate]
          else if pyNormalize resp = "yes" then
            [Event.reportNewerAvailable, Event.promptUser, Event.runDownloadInstall lv]
          else
            [Event.reportNewerAvailable, Event.promptUser, Event.reportManualGuidance]

/-! ## `install_fresh_driver` and `run_check` -/

/-- `NvidiaDriverCheck.install_fresh_driver`: fetches the latest version,
asks for confirmation (`freshResp`), and on "yes" runs the shared
sequence. -/
def install_fresh_driver (latestFetch : Option String) (freshResp : String)
    (respBody : Option (List Nat)) (contentLength : Option Nat) (mode0 : Nat)
    (confirm : String) (exec : ExecResult) : Bool :=
  match get_latest_driver_version latestFetch with
  | none => false
  | some v =>
    if pyNormalize freshResp = "yes" then
      (download_and_install_driver v respBody contentLength mode0 confirm exec).retval
    else false

/-- The environment one `run_check` invocation can observe: `nvidia-smi`
availability, the current driver version, the `latest.txt` fetch outcome,
the three user responses, and the download/subprocess outcomes. -/
structure Env where
  smiAvailable : Bool
  driverVersion : Option String
  latestFetch : Option String
  freshResp : String
  updateResp : String
  respBody : Option (List Nat)
  contentLength : Option Nat
  mode0 : Nat
  confirm : String
  exec : ExecResult

/-- The fresh-install result `run_check` consults when `nvidia-smi` is
unavailable. -/
def envFresh (env : Env) : Bool :=
  install_fresh_driver env.latestFetch env.freshResp env.respBody
    env.contentLength env.mode0 env.confirm env.exec

/-- `NvidiaDriverCheck.run_check`: returns the process exit code together
with the update-check events (the driver-info printing does not influence
the exit code and is not modelled). -/
def run_check (skipUpdateCheck : Bool) (env : Env) : Int × List Event :=
  if env.smiAvailable = false then
    if envFresh env then (0, []) else (1, [])
  else
    let events :=
      if skipUpdateCheck = false then
        check_for_updates env.driverVersion
          (get_latest_driver_version env.latestFetch) env.updateResp
      else []
    (0, events)

/-! ## Lemmas about version parsing and comparison -/

lemma digitRunsAux_sound :
    ∀ (cs acc : List Char), (∀ c ∈ acc, c.isDigit = true) →
      ∀ run ∈ digitRunsAux cs acc, run ≠ [] ∧ run.all Char.isDigit = true := by
  intro cs
  induction cs with
  | nil =>
    intro acc hacc run hrun
    by_cases h : acc.isEmpty
    · simp [digitRunsAux, h] at hrun
    · simp only [digitRunsAux, h, if_false, Bool.false_eq_true, List.mem_singleton] at hrun
      subst hrun
      refine ⟨?_, ?_⟩
      · simp only [ne_eq, List.reverse_eq_nil_iff]
        intro hnil
        rw [hnil] at h
        exact h rfl
      · simp only [List.all_eq_true, List.mem_reverse]
        exact hacc
  | cons c cs ih =>
    intro acc hacc run hrun
    by_cases hd : c.isDigit
    · rw [digitRunsAux, if_pos hd] at hrun
      refine ih (c :: acc) ?_ run hrun
      intro x hx
      rcases List.mem_cons.mp hx with h | h
      · subst h; exact hd
      · exact hacc x h
    · rw [digitRunsAux, if_neg hd] at hrun
      by_cases he : acc.isEmpty
      · rw [if_pos he] at hrun
        exact ih [] (by simp) run hrun
      · rw [if_neg he] at hrun
        rcases List.mem_cons.mp hrun with h | h
        · subst h
          refine ⟨?_, ?_⟩
          · simp only [ne_eq, List.reverse_eq_nil_iff]
            intro hnil
            rw [hnil] at he
            exact he rfl
          · simp only [List.all_eq_true, List.mem_reverse]
            exact hacc
        · exact ih [] (by simp) run h

lemma digitRuns_sound (v : String) :
    ∀ run ∈ digitRuns v, run ≠ [] ∧ run.all Char.isDigit = true :=
  digitRunsAux_sound v.data [] (by simp)

lemma mapOption_pyInt (rs : List (List Char))
    (h : ∀ r ∈ rs, r ≠ [] ∧ r.all Char.isDigit = true) :
    mapOption pyInt rs = some (rs.map digitsToNat) := by
  induction rs with
  | nil => rfl
  | cons r rs ih =>
    have hr := h r (by simp)
    have hpy : pyInt r = some (digitsToNat r) := by
      simp [pyInt, hr.1, hr.2]
    have hrest := ih (fun x hx => h x (List.mem_cons_of_mem r hx))
    simp [mapOption, hpy, hrest]

/-- Digit-run extraction plus `int` conversion never fails: the
`except (ValueError, AttributeError)` branch of `compare_versions` is
unreachable. -/
lemma version_tuple_some (v : String) : version_tuple v = some (vtuple v) :=
  mapOption_pyInt (digitRuns v) (digitRuns_sound v)

lemma tupleLt_iff_lex : ∀ a b : List Nat, tupleLt a b = true ↔ List.Lex (· < ·) a b := by
  intro a
  induction a with
  | nil =>
    intro b
    cases b with
    | nil =>
      constructor
      · intro h; simp [tupleLt] at h
      · intro h; cases h
    | cons y ys => exact iff_of_true rfl (List.Lex.nil)
  | cons x xs ih =>
    intro b
    cases b with
    | nil =>
      constructor
      · intro h; simp [tupleLt] at h
      · intro h; cases h
    | cons y ys =>
      by_cases hxy : x < y
      · rw [tupleLt, if_pos hxy]
        exact iff_of_true rfl (List.Lex.rel hxy)
      · by_cases hyx : y < x
        · rw [tupleLt, if_neg hxy, if_pos hyx]
          constructor
          · intro h; cases h
          · intro h
            cases h with
            | rel h' => exact absurd h' hxy
            | cons h' => exact absurd hyx (lt_irrefl _)
        · have hxy' : x = y := Nat.le_antisymm (Nat.not_lt.mp hyx) (Nat.not_lt.mp hxy)
          subst hxy'
          rw [tupleLt, if_neg hxy, if_neg hyx, ih ys]
          constructor
          · exact List.Lex.cons
          · intro h
            cases h with
            | rel h' => exact absurd h' (lt_irrefl x)
            | cons h' => exact h'

/-- `compare_versions` with the (always-successful) parsing inlined. -/
lemma compare_versions_eq (c l : String) :
    compare_versions c l =
      if tupleLt (vtuple c) (vtuple l) then 1
      else if vtuple c = vtuple l then (0 : Int) else -1 := by
  rw [compare_versions, version_tuple_some c, version_tuple_some l]

lemma compare_versions_cases (c l : String) :
    (compare_versions c l = 1 ↔ List.Lex (· < ·) (vtuple c) (vtuple l))
    ∧ (compare_versions c l = 0 ↔ vtuple c = vtuple l)
    ∧ (compare_versions c l = -1 ↔ List.Lex (· < ·) (vtuple l) (vtuple c)) := by
  rw [compare_versions_eq]
  rcases trichotomous (r := List.Lex (α := Nat) (· < ·)) (vtuple c) (vtuple l)
    with h | h | h
  · rw [if_pos ((tupleLt_iff_lex _ _).mpr h)]
    refine ⟨iff_of_true rfl h, ?_, ?_⟩
    · constructor
      · intro h1; cases h1
      · intro he; rw [he] at h; exact absurd h (irrefl _)
    · constructor
      · intro h1; cases h1
      · intro h2; exact absurd h (asymm h2)
  · rw [if_neg ?hne, if_pos h]
    case hne =>
      rw [h]
      intro hlt
      exact absurd ((tupleLt_iff_lex _ _).mp hlt) (irrefl _)
    refine ⟨?_, iff_of_true rfl h, ?_⟩
    · constructor
      · intro h1; cases h1
      · intro h1; rw [h] at h1; exact absurd h1 (irrefl _)
    · constructor
      · intro h1; cases h1
      · intro h1; rw [h] at h1; exact absurd h1 (irrefl _)
  · rw [if_neg ?hne2, if_neg ?hne3]
    case hne2 =>
      intro hlt
      exact absurd ((tupleLt_iff_lex _ _).mp hlt) (asymm h)
    case hne3 =>
      intro he; rw [he] at h; exact absurd h (irrefl _)
    refine ⟨?_, ?_, iff_of_true rfl h⟩
    · constructor
      · intro h1; cases h1
      · intro h1; exact absurd h1 (asymm h)
    · constructor
      · intro h1; cases h1
      · intro he; rw [he] at h; exact absurd h (irrefl _)

lemma compare_versions_range (c l : String) :
    compare_versions c l = 1 ∨ compare_versions c l = 0 ∨ compare_versions c l = -1 := by
  rw [compare_versions_eq]
  by_cases h1 : tupleLt (vtuple c) (vtuple l)
  · left; rw [if_pos h1]
  · by_cases h2 : vtuple c = vtuple l
    · right; left; rw [if_neg h1, if_pos h2]
    · right; right; rw [if_neg h1, if_neg h2]

/-! ## Lemmas about the download loop -/

lemma chunksOfFuel_flatten (n : Nat) (hn : n ≠ 0) :
    ∀ (fuel : Nat) (l : List Nat), l.length ≤ fuel →
      (chunksOfFuel fuel n l).flatten = l := by
  intro fuel
  induction fuel with
  | zero =>
    intro l hl
    have : l = [] := List.length_eq_zero.mp (Nat.le_zero.mp hl)
    subst this; rfl
  | succ fuel ih =>
    intro l hl
    cases l with
    | nil => rfl
    | cons x xs =>
      have hlen : ((x :: xs).drop n).length ≤ fuel := by
        rw [List.length_drop]
        simp only [List.length_cons] at hl ⊢
        omega
      rw [chunksOfFuel, List.flatten_cons, ih _ hlen, List.take_append_drop]

lemma dlLoop_fst : ∀ (chunks : List (List Nat)) (d : Nat),
    (dlLoop chunks d).1 = chunks.flatten := by
  intro chunks
  induction chunks with
  | nil => intro d; rfl
  | cons c cs ih =>
    intro d
    rw [dlLoop, List.flatten_cons]
    simp only []
    rw [ih]

lemma dlLoop_snd_length : ∀ (chunks : List (List Nat)) (d : Nat),
    (dlLoop chunks d).2.length = chunks.length := by
  intro chunks
  induction chunks with
  | nil => intro d; rfl
  | cons c cs ih =>
    intro d
    rw [dlLoop]
    simp only [List.length_cons]
    rw [ih]

/-! ## Claim theorems -/

/-- C1: `compare_versions` returns NEWER (`1`) / EQUAL (`0`) / OLDER (`-1`)
exactly according to lexicographic (Python-tuple) comparison of the integer
sequences extracted as maximal digit runs, so two identifiers with equal
numeric components compare EQUAL; the spec's three examples evaluate as
stated. -/
theorem compare_versions_lexicographic (c l : String) :
    ((compare_versions c l = 1 ↔ List.Lex (· < ·) (vtuple c) (vtuple l))
      ∧ (compare_versions c l = 0 ↔ vtuple c = vtuple l)
      ∧ (compare_versions c l = -1 ↔ List.Lex (· < ·) (vtuple l) (vtuple c)))
    ∧ compare_versions "580.105.08" "580.105.08" = 0
    ∧ compare_versions "580.105.08" "580.110.00" = 1
    ∧ compare_versions "580.105.08" "1" = -1 :=
  ⟨compare_versions_cases c l, by decide, by decide, by decide⟩

/-- C2 counterexample: the claim "at least one side without digits gives
EQUAL, and a malformed side never yields NEWER" is false: `"abc"` has no
digits, yet `compare_versions "abc" "5" = 1` (NEWER), because the empty
tuple is a strict prefix of `(5,)`. -/
theorem compare_versions_digit_free_counterexample :
    vtuple "abc" = [] ∧ compare_versions "abc" "5" = 1 := by decide

/-- C2 (amended): only when BOTH inputs yield zero numeric components does
the comparison default to EQUAL (`0`); in particular
`compare_versions "abc" "xyz" = 0`. -/
theorem compare_versions_both_digit_free (c l : String)
    (hc : vtuple c = []) (hl : vtuple l = []) :
    compare_versions c l = 0 := by
  rw [compare_versions_eq, hc, hl]
  rfl

/-- Witness for C2 (amended) at `"abc"`, `"xyz"`. -/
theorem compare_versions_both_digit_free_witness :
    compare_versions "abc" "xyz" = 0 :=
  compare_versions_both_digit_free "abc" "xyz" (by decide) (by decide)

/-- C3: with a current version available (a version string is truthy in
Python exactly when it is nonempty) and a latest version resolved (likewise
nonempty; `get_latest_driver_version` only ever returns a nonempty token),
a comparison of OLDER or EQUAL reports "up to date" with no prompt and no
download-then-install; only NEWER prompts, running the shared sequence on
acceptance and reporting manual-update guidance on decline. -/
theorem check_for_updates_flow (cv lv resp : String)
    (hcv : cv ≠ "") (hlv : lv ≠ "") :
    (compare_versions cv lv ≤ 0 →
      check_for_updates (some cv) (some lv) resp = [Event.reportUpToDate])
    ∧ (compare_versions cv lv = 1 →
      (pyNormalize resp = "yes" →
        check_for_updates (some cv) (some lv) resp
          = [Event.reportNewerAvailable, Event.promptUser,
              Event.runDownloadInstall lv])
      ∧ (pyNormalize resp ≠ "yes" →
        check_for_updates (some cv) (some lv) resp
          = [Event.reportNewerAvailable, Event.promptUser,
              Event.reportManualGuidance]))
    ∧ (Event.promptUser ∈ check_for_updates (some cv) (some lv) resp →
        compare_versions cv lv = 1)
    ∧ (∀ v, Event.runDownloadInstall v ∈ check_for_updates (some cv) (some lv) resp →
        compare_versions cv lv = 1 ∧ pyNormalize resp = "yes" ∧ v = lv) := by
  have hdef : check_for_updates (some cv) (some lv) resp =
      (if compare_versions cv lv < 0 then [Event.reportUpToDate]
       else if compare_versions cv lv = 0 then [Event.reportUpToDate]
       else if pyNormalize resp = "yes" then
         [Event.reportNewerAvailable, Event.promptUser,
           Event.runDownloadInstall lv]
       else
         [Event.reportNewerAvailable, Event.promptUser,
           Event.reportManualGuidance]) := by
    show (if cv = "" then [Event.reportNoCurrent]
          else if lv = "" then [Event.reportNoLatest]
          else if compare_versions cv lv < 0 then [Event.reportUpToDate]
          else if compare_versions cv lv = 0 then [Event.reportUpToDate]
          else if pyNormalize resp = "yes" then
            [Event.reportNewerAvailable, Event.promptUser,
              Event.runDownloadInstall lv]
          else
            [Event.reportNewerAvailable, Event.promptUser,
              Event.reportManualGuidance]) = _
    rw [if_neg hcv, if_neg hlv]
  rcases compare_versions_range cv lv with h1 | h1 | h1
  · have hev : check_for_updates (some cv) (some lv) resp =
        if pyNormalize resp = "yes" then
          [Event.reportNewerAvailable, Event.promptUser,
            Event.runDownloadInstall lv]
        else
          [Event.reportNewerAvailable, Event.promptUser,
            Event.reportManualGuidance] := by
      rw [hdef, h1, if_neg (by norm_num), if_neg (by norm_num)]
    refine ⟨?_, ?_, ?_, ?_⟩
    · intro hle; rw [h1] at hle; exact absurd hle (by norm_num)
    · intro _
      exact ⟨fun hyes => by rw [hev, if_pos hyes],
             fun hno => by rw [hev, if_neg hno]⟩
    · intro _; exact h1
    · intro v hv
      refine ⟨h1, ?_⟩
      rw [hev] at hv
      by_cases hyes : pyNormalize resp = "yes"
      · rw [if_pos hyes] at hv
        simp only [List.mem_cons, List.not_mem_nil, or_false] at hv
        rcases hv with h | h | h
        · cases h
        · cases h
        · cases h; exact ⟨hyes, rfl⟩
      · rw [if_neg hyes] at hv
        simp only [List.mem_cons, List.not_mem_nil, or_false] at hv
        rcases hv with h | h | h
        · cases h
        · cases h
        · cases h
  · have hev : check_for_updates (some cv) (some lv) resp = [Event.reportUpToDate] := by
      rw [hdef, h1, if_neg (by norm_num), if_pos rfl]
    refine ⟨fun _ => hev, ?_, ?_, ?_⟩
    · intro h; rw [h1] at h; exact absurd h (by norm_num)
    · intro hmem; rw [hev] at hmem
      simp only [List.mem_singleton] at hmem
      cases hmem
    · intro v hv; rw [hev] at hv
      simp only [List.mem_singleton] at hv
      cases hv
  · have hev : check_for_updates (some cv) (some lv) resp = [Event.reportUpToDate] := by
      rw [hdef, h1, if_pos (by norm_num)]
    refine ⟨fun _ => hev, ?_, ?_, ?_⟩
    · intro h; rw [h1] at h; exact absurd h (by norm_num)
    · intro hmem; rw [hev] at hmem
      simp only [List.mem_singleton] at hmem
      cases hmem
    · intro v hv; rw [hev] at hv
      simp only [List.mem_singleton] at hv
      cases hv

/-- Witness for C3: a NEWER latest with a declined prompt yields the
manual-guidance events. -/
theorem check_for_updates_flow_witness :
    check_for_updates (some "580.105.08") (some "580.110.00") "no"
      = [Event.reportNewerAvailable, Event.promptUser,
          Event.reportManualGuidance] :=
  ((check_for_updates_flow "580.105.08" "580.110.00" "no"
    (by decide) (by decide)).2.1 (by decide)).2 (by decide)

/-- C4: any confirmation other than (case-insensitive, stripped) "yes"
cancels: `install_driver` returns the non-error decline `False` with
outcome `Cancelled` and the privileged `sudo` subprocess is never invoked;
conversely the subprocess is invoked only after an affirmative
confirmation. -/
theorem install_driver_decline (resp : String) (exec : ExecResult) :
    (pyNormalize resp ≠ "yes" →
      install_driver resp exec = ⟨false, false, InstallOutcome.cancelled⟩)
    ∧ ((install_driver resp exec).sudoInvoked = true → pyNormalize resp = "yes") := by
  by_cases h : pyNormalize resp = "yes"
  · exact ⟨fun hn => absurd h hn, fun _ => h⟩
  · constructor
    · intro _
      rw [install_driver.eq_def, if_pos h]
    · intro hs
      rw [install_driver.eq_def, if_pos h] at hs
      exact absurd hs (by decide)

/-- Witness for C4 at the declining response `"no"`. -/
theorem install_driver_decline_witness :
    install_driver "no" (ExecResult.exited 0)
      = ⟨false, false, InstallOutcome.cancelled⟩ :=
  (install_driver_decline "no" (ExecResult.exited 0)).1 (by decide)

/-- C7: after an affirmative confirmation, exit code zero yields Succeeded
(`True`), a nonzero exit code yields Failed with that code (`False`),
exceeding the 600-second timeout yields TimedOut (`False`), and every such
outcome is an ordinary return, not an exception. -/
theorem install_driver_outcomes (resp : String) (code : Int)
    (h : pyNormalize resp = "yes") :
    install_driver resp (ExecResult.exited 0)
        = ⟨true, true, InstallOutcome.succeeded⟩
    ∧ (code ≠ 0 →
        install_driver resp (ExecResult.exited code)
          = ⟨true, false, InstallOutcome.failed code⟩)
    ∧ install_driver resp ExecResult.timedOut
        = ⟨true, false, InstallOutcome.timedOut⟩
    ∧ install_driver resp ExecResult.raised
        = ⟨true, false, InstallOutcome.errored⟩
    ∧ INSTALL_TIMEOUT = 600 := by
  have hne : ¬ pyNormalize resp ≠ "yes" := fun hn => hn h
  refine ⟨?_, ?_, ?_, ?_, rfl⟩
  · rw [install_driver, if_neg hne]
    rw [if_pos rfl]
  · intro hc
    rw [install_driver, if_neg hne]
    show (if code = 0 then (⟨true, true, InstallOutcome.succeeded⟩ : InstallResult)
          else ⟨true, false, InstallOutcome.failed code⟩)
        = ⟨true, false, InstallOutcome.failed code⟩
    rw [if_neg hc]
  · rw [install_driver, if_neg hne]
  · rw [install_driver, if_neg hne]

/-- Witness for C7 at the (case-insensitive) confirmation `"YES"` and a
failing exit code `2`. -/
theorem install_driver_outcomes_witness :
    install_driver "YES" (ExecResult.exited 2)
      = ⟨true, false, InstallOutcome.failed 2⟩ :=
  (install_driver_outcomes "YES" 2 (by decide)).2.1 (by decide)

/-- C5: a successful download of an `N`-byte body with `Content-Length: N`
writes exactly those bytes to the destination, reports progress once per
8 KiB chunk, sets the owner/group/other execute permission bits
(bits 6, 3, 0), and returns `True`; a failed transfer returns `False`. -/
theorem download_driver_success (body : List Nat) (mode0 : Nat) :
    (download_driver (some body) (some body.length) mode0).fileBytes = body
    ∧ (download_driver (some body) (some body.length) mode0).retval = true
    ∧ (download_driver (some body) (some body.length) mode0).progress.length
        = (chunksOf CHUNK_SIZE body).length
    ∧ Nat.testBit (download_driver (some body) (some body.length) mode0).mode 0 = true
    ∧ Nat.testBit (download_driver (some body) (some body.length) mode0).mode 3 = true
    ∧ Nat.testBit (download_driver (some body) (some body.length) mode0).mode 6 = true
    ∧ (∀ contentLength m, (download_driver none contentLength m).retval = false) := by
  have hred : download_driver (some body) (some body.length) mode0 =
      ⟨(dlLoop (chunksOf CHUNK_SIZE body) 0).1,
        if body.length = 0 then [] else (dlLoop (chunksOf CHUNK_SIZE body) 0).2,
        mode0 ||| (S_IXUSR ||| S_IXGRP ||| S_IXOTH), true⟩ := rfl
  refine ⟨?_, ?_, ?_, ?_, ?_, ?_, fun _ _ => rfl⟩
  · rw [hred]
    show (dlLoop (chunksOf CHUNK_SIZE body) 0).1 = body
    rw [dlLoop_fst]
    exact chunksOfFuel_flatten CHUNK_SIZE (by decide) body.length body le_rfl
  · rw [hred]
  · rw [hred]
    show (if body.length = 0 then []
          else (dlLoop (chunksOf CHUNK_SIZE body) 0).2).length
        = (chunksOf CHUNK_SIZE body).length
    by_cases hb : body.length = 0
    · have : body = [] := List.length_eq_zero.mp hb
      subst this
      rfl
    · rw [if_neg hb, dlLoop_snd_length]
  · rw [hred]
    show Nat.testBit (mode0 ||| (S_IXUSR ||| S_IXGRP ||| S_IXOTH)) 0 = true
    rw [Nat.testBit_or]
    have h : Nat.testBit (S_IXUSR ||| S_IXGRP ||| S_IXOTH) 0 = true := by decide
    rw [h, Bool.or_true]
  · rw [hred]
    show Nat.testBit (mode0 ||| (S_IXUSR ||| S_IXGRP ||| S_IXOTH)) 3 = true
    rw [Nat.testBit_or]
    have h : Nat.testBit (S_IXUSR ||| S_IXGRP ||| S_IXOTH) 3 = true := by decide
    rw [h, Bool.or_true]
  · rw [hred]
    show Nat.testBit (mode0 ||| (S_IXUSR ||| S_IXGRP ||| S_IXOTH)) 6 = true
    rw [Nat.testBit_or]
    have h : Nat.testBit (S_IXUSR ||| S_IXGRP ||| S_IXOTH) 6 = true := by decide
    rw [h, Bool.or_true]

/-- C6: `get_latest_driver_version` returns the first whitespace-delimited
token of a fetched body (the rest is ignored), `none` on any fetch failure
or an empty/unparseable body, and the caller reports
"could not determine latest" non-fatally in that case. -/
theorem get_latest_driver_version_spec (content : String) :
    get_latest_driver_version none = none
    ∧ get_latest_driver_version (some content) = (pyTokens content).head?
    ∧ get_latest_driver_version
        (some "580.105.08 580.105.08/NVIDIA-Linux-x86_64-580.105.08.run")
        = some "580.105.08"
    ∧ get_latest_driver_version (some "   ") = none
    ∧ (∀ resp, check_for_updates (some "580.105.08") none resp
        = [Event.reportNoLatest]) := by
  refine ⟨rfl, ?_, by decide, by decide, fun resp => rfl⟩
  show (match pyTokens content with
        | [] => none
        | p :: _ => some p)
      = (pyTokens content).head?
  cases pyTokens content with
  | nil => rfl
  | cons p ps => rfl

/-- C8: the shared download-then-install sequence scopes the artifact in a
temporary directory removed on every exit path, names it from the version
and the fixed template, and on download failure reports the
manual-download URL and returns failure without invoking the installer. -/
theorem download_and_install_scoped (version : String) (respBody : Option (List Nat))
    (contentLength : Option Nat) (mode0 : Nat) (confirm : String)
    (exec : ExecResult) :
    (download_and_install_driver version respBody contentLength mode0 confirm
        exec).tempRemoved = true
    ∧ (download_and_install_driver version respBody contentLength mode0 confirm
        exec).downloadUrl = get_download_url version
    ∧ (download_and_install_driver version respBody contentLength mode0 confirm
        exec).filename = driver_filename version
    ∧ ((download_driver respBody contentLength mode0).retval = false →
        download_and_install_driver version respBody contentLength mode0 confirm
            exec
          = ⟨get_download_url version, driver_filename version,
              false, true, false, true⟩) := by
  by_cases h : (download_driver respBody contentLength mode0).retval = true
  · unfold download_and_install_driver
    rw [if_pos h]
    exact ⟨rfl, rfl, rfl, fun hf => absurd (hf ▸ h) (by decide)⟩
  · unfold download_and_install_driver
    rw [if_neg h]
    exact ⟨rfl, rfl, rfl, fun _ => rfl⟩

/-- Witness for C8 at a failed download. -/
theorem download_and_install_scoped_witness :
    download_and_install_driver "580.105.08" none none 0 "yes"
        (ExecResult.exited 0)
      = ⟨get_download_url "580.105.08", driver_filename "580.105.08",
          false, true, false, true⟩ :=
  (download_and_install_scoped "580.105.08" none none 0 "yes"
    (ExecResult.exited 0)).2.2.2 rfl

/-- C9: the process exit code of `run_check` is `0` whenever a driver is
detected (whatever the update check does) and whenever the fresh install
succeeds; it is `1` exactly when no driver is detected and the fresh
install flow does not succeed. -/
theorem run_check_exit_code (skip : Bool) (env : Env) :
    ((run_check skip env).1 = 1 ↔
      env.smiAvailable = false ∧ envFresh env = false)
    ∧ (env.smiAvailable = true → (run_check skip env).1 = 0)
    ∧ ((run_check skip env).1 = 0 ∨ (run_check skip env).1 = 1) := by
  cases hsmi : env.smiAvailable with
  | false =>
    cases hf : envFresh env with
    | false => simp [run_check, hsmi, hf]
    | true => simp [run_check, hsmi, hf]
  | true => simp [run_check, hsmi]

/-- Witness for C9: a detected driver gives exit code `0`. -/
theorem run_check_exit_code_witness :
    (run_check true
        ⟨true, none, none, "", "", none, none, 0, "", ExecResult.raised⟩).1 = 0 :=
  (run_check_exit_code true
    ⟨true, none, none, "", "", none, none, 0, "", ExecResult.raised⟩).2.1 rfl

/-- C10: `compare_versions` is total on strings: digit-run extraction and
integer conversion never fail, so the `except (ValueError, AttributeError)`
handler is unreachable and the result is always one of `1`, `0`, `-1`. -/
theorem compare_versions_total (v w : String) :
    version_tuple v = some (vtuple v)
    ∧ (compare_versions v w = 1 ∨ compare_versions v w = 0
        ∨ compare_versions v w = -1) :=
  ⟨version_tuple_some v, compare_versions_range v w⟩

end NvidiaCheck
